import Mathlib

/-!
Verification development for the Taskflow backend account / email-verification
subsystem (src/config/db.ts, src/middleware/auth.ts, src/models/user.model.ts).

The mongoose user collection is embedded as a list of `UserDoc` records; each
controller from src/config/db.ts becomes a pure function from its request body
and the current collection to an HTTP response together with the updated
collection.  External collaborators (bcrypt, the `validator` email check, the
jsonwebtoken library, Math.random, and the SMTP transport outcome) are passed
in as explicit parameters, matching §1 of the design notes: they are outside
the core and only their results are observed by the code under verification.
-/

/-- One persisted user record, after src/models/user.model.ts
(`UserDocument`).  `password`, `googleId`, `verificationToken` and
`verificationTokenExpiresAt` are optional exactly as in the schema;
timestamps irrelevant to the claims are omitted.  Times are epoch
milliseconds as produced by `Date.now()`. -/
structure UserDoc where
  id : Nat
  name : String
  email : String
  password : Option String
  googleId : Option String
  picture : String
  isGoogleAuth : Bool
  emailVerified : Bool
  verificationToken : Option String
  verificationTokenExpiresAt : Option Nat
  otpAttempts : Nat
deriving DecidableEq

/-- The `user` payload serialised in success responses. -/
structure UserView where
  id : Nat
  name : String
  email : String
  picture : String
  emailVerified : Bool
deriving DecidableEq

/-- An HTTP JSON response as produced by the controllers: status code,
`success` flag, `message`, and the optional extra fields the handlers emit. -/
structure Resp where
  status : Nat
  success : Bool
  message : String := ""
  requiresVerification : Option Bool := none
  email : Option String := none
  userId : Option Nat := none
  token : Option String := none
  user : Option UserView := none
deriving DecidableEq

/-- Error-shaped response helper (`res.status(st).json({success:false, message})`). -/
def errResp (st : Nat) (msg : String) : Resp :=
  { status := st, success := false, message := msg }

/-- Lower-casing of one character, ASCII range (the range the JS
`String.prototype.toLowerCase` builtin and these email flows exercise). -/
def charLower (c : Char) : Char :=
  if c.toNat ≥ 65 && c.toNat ≤ 90 then Char.ofNat (c.toNat + 32) else c

/-- Model of the JS builtin `String.prototype.toLowerCase` used by
`email.toLowerCase()` throughout src/config/db.ts. -/
def jsToLower (s : String) : String :=
  String.mk (s.data.map charLower)

/-- Model of the JS builtin `String.prototype.startsWith`. -/
def jsStartsWith (s p : String) : Bool :=
  decide (s.data.take p.data.length = p.data)

/-- Model of the JS builtin `String.prototype.split(' ')` used by
`authHeader.split(' ')` in src/middleware/auth.ts. -/
def jsSplitOnSpace (s : String) : List String :=
  (s.data.splitOn ' ').map String.mk

/-- JavaScript truthiness of an optional string request-body field:
`undefined` and the empty string are falsy, every other string is truthy. -/
def strTruthy (s : Option String) : Bool :=
  match s with
  | none => false
  | some t => !t.isEmpty

/-- Deterministic stand-in for `jwt.sign({id}, JWT_SECRET, {expiresIn})`
(`createToken` in src/config/db.ts); the claims only observe that a token
string derived from the user id is returned. -/
def createToken (userId : Nat) : String :=
  "tok:" ++ toString userId

/-- `User.findOne({ email: email.toLowerCase() })`: the schema stores emails
lower-cased, the query lower-cases before lookup. -/
def findByEmail (db : List UserDoc) (email : String) : Option UserDoc :=
  db.find? (fun u => u.email == jsToLower email)

/-- `User.findById(id)`. -/
def findById (db : List UserDoc) (i : Nat) : Option UserDoc :=
  db.find? (fun u => u.id == i)

/-- Mongoose `user.save()`: write the mutated document back by `_id`. -/
def updateById (db : List UserDoc) (i : Nat) (u : UserDoc) : List UserDoc :=
  db.map (fun v => if v.id == i then u else v)

/-- The mongo condition `verificationTokenExpiresAt: { $gt: Date.now() }`:
an absent field matches nothing, a present one must be strictly later
than `now`. -/
def expPending (u : UserDoc) (now : Nat) : Bool :=
  match u.verificationTokenExpiresAt with
  | some t => decide (now < t)
  | none => false

/-- `generateOTP` from src/config/db.ts line 59:
`Math.floor(100000 + Math.random() * 900000).toString()`, with
`Math.random()` modelled as an arbitrary rational `r` with `0 ≤ r < 1`.
The result is the natural number whose decimal string the code sends. -/
def generateOTP (r : ℚ) : ℕ :=
  (⌊(100000 : ℚ) + r * 900000⌋).toNat

/-- `registerUser` (src/config/db.ts lines 64-160).  `isEmail` stands for
`validator.isEmail`, `hash` for `bcrypt.hash` with the configured salt,
`otp` for the freshly generated OTP, `emailSent` for the outcome of
`sendVerificationEmail`, and `freshId` for the `_id` mongo assigns. -/
def registerUser (isEmail : String → Bool) (hash : String → String)
    (now freshId : Nat) (otp : String) (emailSent : Bool)
    (name email password : Option String) (db : List UserDoc) :
    Resp × List UserDoc :=
  if !strTruthy name || !strTruthy email || !strTruthy password then
    (errResp 400 "All fields are required.", db)
  else
    let em := email.getD ""
    let pw := password.getD ""
    if !isEmail em then
      (errResp 400 "Invalid email.", db)
    else if pw.length < 8 then
      (errResp 400 "Password must be at least 8 characters.", db)
    else
      match findByEmail db em with
      | some ex =>
        if ex.isGoogleAuth then
          (errResp 409 "An account with this email already exists using Google Sign-In. Please use 'Continue with Google' to login.", db)
        else if !ex.emailVerified then
          ({ status := 409
             success := false
             message := "Email already registered but not verified. Please verify your email."
             requiresVerification := some true
             email := some ex.email }, db)
        else
          (errResp 409 "An account with this email already exists. Please login instead.", db)
      | none =>
        let user : UserDoc :=
          { id := freshId
            name := name.getD ""
            email := jsToLower em
            password := some (hash pw)
            googleId := none
            picture := ""
            isGoogleAuth := false
            emailVerified := false
            verificationToken := some otp
            verificationTokenExpiresAt := some (now + 10 * 60 * 1000)
            otpAttempts := 0 }
        let db2 := db ++ [user]
        if !emailSent then
          (errResp 500 "Failed to send verification email. Please try again.", db2)
        else
          ({ status := 201
             success := true
             message := "Registration successful! Please check your email for verification code."
             requiresVerification := some true
             email := some user.email
             userId := some user.id }, db2)

/-- The exact invalid-code message built at src/config/db.ts line 204. -/
def attemptsMsg (left : Nat) : String :=
  "Invalid verification code. " ++ toString left ++ " attempt"
    ++ (if left != 1 then "s" else "") ++ " remaining."

/-- The lookup of `verifyEmail`:
`User.findOne({email: email.toLowerCase(), verificationTokenExpiresAt: {$gt: Date.now()}})`. -/
def verifyFind (db : List UserDoc) (email : String) (now : Nat) : Option UserDoc :=
  db.find? (fun u => u.email == jsToLower email && expPending u now)

/-- `verifyEmail` (src/config/db.ts lines 163-245). -/
def verifyEmail (now : Nat) (email code : Option String) (db : List UserDoc) :
    Resp × List UserDoc :=
  if !strTruthy email || !strTruthy code then
    (errResp 400 "Email and verification code are required.", db)
  else
    let em := email.getD ""
    let cd := code.getD ""
    match verifyFind db em now with
    | none => (errResp 400 "Invalid or expired verification code.", db)
    | some u =>
      if 5 ≤ u.otpAttempts then
        (errResp 429 "Too many failed attempts. Please request a new code.", db)
      else if u.verificationToken != some cd then
        let u2 : UserDoc := { u with otpAttempts := u.otpAttempts + 1 }
        (errResp 400 (attemptsMsg (5 - u2.otpAttempts)), updateById db u.id u2)
      else
        let u2 : UserDoc :=
          { u with
            emailVerified := true
            verificationToken := none
            verificationTokenExpiresAt := none
            otpAttempts := 0 }
        ({ status := 200
           success := true
           message := "Email verified successfully!"
           token := some (createToken u.id)
           user := some { id := u.id, name := u.name, email := u.email, picture := u.picture, emailVerified := true } },
         updateById db u.id u2)

/-- `resendOTP` (src/config/db.ts lines 248-299): the new code is persisted
before the email is attempted, so the record is updated even when the
transport fails. -/
def resendOTP (now : Nat) (otp : String) (emailSent : Bool)
    (email : Option String) (db : List UserDoc) : Resp × List UserDoc :=
  if !strTruthy email then
    (errResp 400 "Email is required.", db)
  else
    match findByEmail db (email.getD "") with
    | none => (errResp 404 "User not found.", db)
    | some u =>
      if u.emailVerified then
        (errResp 400 "Email is already verified.", db)
      else
        let u2 : UserDoc :=
          { u with
            verificationToken := some otp
            verificationTokenExpiresAt := some (now + 10 * 60 * 1000)
            otpAttempts := 0 }
        let db2 := updateById db u.id u2
        if !emailSent then
          (errResp 500 "Failed to send email.", db2)
        else
          ({ status := 200
             success := true
             message := "Verification code sent to your email." }, db2)

/-- `loginUser` (src/config/db.ts lines 302-370).  `bcompare` stands for
`bcrypt.compare`. -/
def loginUser (bcompare : String → String → Bool)
    (email password : Option String) (db : List UserDoc) :
    Resp × List UserDoc :=
  if !strTruthy email || !strTruthy password then
    (errResp 400 "Email and password are required.", db)
  else
    match findByEmail db (email.getD "") with
    | none => (errResp 401 "Invalid email or password.", db)
    | some u =>
      if u.isGoogleAuth then
        (errResp 401 "Please use 'Continue with Google' to login.", db)
      else if !strTruthy u.password then
        (errResp 401 "Invalid email or password.", db)
      else if !bcompare (password.getD "") (u.password.getD "") then
        (errResp 401 "Invalid email or password.", db)
      else if !u.emailVerified then
        ({ status := 403
           success := false
           message := "Please verify your email first."
           requiresVerification := some true
           email := some u.email }, db)
      else
        ({ status := 200
           success := true
           token := some (createToken u.id)
           user := some { id := u.id, name := u.name, email := u.email, picture := u.picture, emailVerified := u.emailVerified } }, db)

/-- `googleAuth` (src/config/db.ts lines 373-466) from the point where the
OAuth code exchange has produced the verified profile
`(email, name, picture, googleId)`; the exchange itself is an external
collaborator.  `freshId` is the `_id` mongo would assign on creation. -/
def googleAuthCore (name email picture googleId : String)
    (freshId : Nat) (db : List UserDoc) : Resp × List UserDoc :=
  match findByEmail db email with
  | some user =>
    let user2 : UserDoc :=
      if !user.isGoogleAuth && strTruthy user.password then
        { user with
          googleId := some googleId
          isGoogleAuth := true
          emailVerified := true
          picture := if !picture.isEmpty then picture else user.picture }
      else if user.isGoogleAuth && !strTruthy user.googleId then
        { user with
          googleId := some googleId
          emailVerified := true
          picture := if !picture.isEmpty then picture else user.picture }
      else if user.isGoogleAuth then
        (if !picture.isEmpty && user.picture != picture then
          { user with picture := picture }
        else user)
      else user
    ({ status := 200
       success := true
       message := "Google authentication successful"
       token := some (createToken user.id)
       user := some { id := user2.id, name := user2.name, email := user2.email, picture := user2.picture, emailVerified := user2.emailVerified } },
     updateById db user.id user2)
  | none =>
    let user : UserDoc :=
      { id := freshId
        name := name
        email := jsToLower email
        password := none
        googleId := some googleId
        picture := picture
        isGoogleAuth := true
        emailVerified := true
        verificationToken := none
        verificationTokenExpiresAt := none
        otpAttempts := 0 }
    ({ status := 200
       success := true
       message := "Google authentication successful"
       token := some (createToken user.id)
       user := some { id := user.id, name := user.name, email := user.email, picture := user.picture, emailVerified := user.emailVerified } },
     db ++ [user])

/-- Outcome of the auth middleware: a 401 response, or control passed to the
next handler with `req.user = {id}` attached. -/
inductive AuthOut where
  | denied (resp : Resp)
  | ok (userId : Nat)
deriving DecidableEq

/-- `authMiddleware` (src/middleware/auth.ts lines 7-28).  `resolve` stands
for `jwt.verify` with the configured secret: `none` models a thrown
`JsonWebTokenError`/`TokenExpiredError` (malformed, badly signed or expired
token), `some i` a payload `{id: i}`. -/
def authMiddleware (resolve : String → Option Nat) (authHeader : Option String)
    (db : List UserDoc) : AuthOut × List UserDoc :=
  match authHeader with
  | none => (.denied (errResp 401 "Not authorized, token missing"), db)
  | some h =>
    if !jsStartsWith h "Bearer " then
      (.denied (errResp 401 "Not authorized, token missing"), db)
    else
      match resolve ((jsSplitOnSpace h).getD 1 "") with
      | none => (.denied (errResp 401 "Token invalid or expired"), db)
      | some i =>
        match findById db i with
        | none => (.denied (errResp 401 "User not found"), db)
        | some u => (.ok u.id, db)

/-- Sample bcrypt stand-in used by the concrete witnesses: `demoHash` is
injective-looking salted storage, `demoCompare` accepts exactly its output. -/
def demoHash (p : String) : String :=
  "h:" ++ p

/-- Companion comparison for `demoHash` (see `demoHash`). -/
def demoCompare (p h : String) : Bool :=
  h == "h:" ++ p

/-- Sample `validator.isEmail` stand-in for the witnesses. -/
def demoIsEmail (s : String) : Bool :=
  s.data.contains '@'

/-- Sample token resolution for the witnesses: only "T" resolves, to id 1. -/
def demoResolve (t : String) : Option Nat :=
  if t == "T" then some 1 else none

/-- A freshly registered, unverified password account with a pending OTP. -/
def annU : UserDoc :=
  { id := 1
    name := "Ann"
    email := "ann@x.com"
    password := some "h:password1"
    googleId := none
    picture := ""
    isGoogleAuth := false
    emailVerified := false
    verificationToken := some "123456"
    verificationTokenExpiresAt := some 1000000
    otpAttempts := 0 }

/-- The same account once verified (no pending verification record). -/
def annV : UserDoc :=
  { annU with
    emailVerified := true
    verificationToken := none
    verificationTokenExpiresAt := none }

/-- An account already linked to a Google identity. -/
def bobL : UserDoc :=
  { id := 3
    name := "Bob"
    email := "bob@x.com"
    password := some "h:pw12345"
    googleId := some "g9"
    picture := "p0"
    isGoogleAuth := true
    emailVerified := true
    verificationToken := none
    verificationTokenExpiresAt := none
    otpAttempts := 0 }

/-- `List.find?` only inspects members of the list, so predicates that agree
on every member give the same result. -/
theorem find?_congr_mem {α : Type} {p q : α → Bool}
    (l : List α) (h : ∀ a ∈ l, p a = q a) : l.find? p = l.find? q := by
  induction l with
  | nil => rfl
  | cons x xs ih =>
    have hx : p x = q x := h x (List.mem_cons_self x xs)
    rw [List.find?_cons, List.find?_cons, ← hx]
    cases hp : p x
    · exact ih fun a ha => h a (List.mem_cons_of_mem x ha)
    · rfl

/-- After writing `u2` back over `u` (ids being functional on the collection),
a lookup whose predicate accepts `u2` and agrees with the original lookup on
every other record finds exactly `u2`. -/
theorem find?_updateById {db : List UserDoc} {u u2 : UserDoc} {p q : UserDoc → Bool}
    (hfind : db.find? p = some u)
    (hId : ∀ v ∈ db, v.id = u.id → v = u)
    (hq : q u2 = true)
    (hother : ∀ v ∈ db, v ≠ u → q v = p v) :
    (updateById db u.id u2).find? q = some u2 := by
  have hpu : p u = true := List.find?_some hfind
  unfold updateById
  rw [List.find?_map]
  have hcongr : db.find? (q ∘ fun v => if v.id == u.id then u2 else v) = db.find? p := by
    apply find?_congr_mem
    intro a ha
    by_cases hau : a = u
    · subst hau
      simp [Function.comp, hq, hpu]
    · have hbeq : (a.id == u.id) = false := by
        simp only [beq_eq_false_iff_ne, ne_eq]
        exact fun h => hau (hId a ha h)
      simp [Function.comp, hbeq, hother a ha hau]
  rw [hcongr, hfind]
  simp

/-- After writing `u2` back over `u`, a lookup whose predicate rejects `u2`
and every other record finds nothing. -/
theorem find?_updateById_none {db : List UserDoc} {u u2 : UserDoc} {p q : UserDoc → Bool}
    (hfind : db.find? p = some u)
    (hId : ∀ v ∈ db, v.id = u.id → v = u)
    (hq : q u2 = false)
    (hother : ∀ v ∈ db, v ≠ u → q v = false) :
    (updateById db u.id u2).find? q = none := by
  unfold updateById
  rw [List.find?_map]
  have hnone : db.find? (q ∘ fun v => if v.id == u.id then u2 else v) = none := by
    rw [List.find?_eq_none]
    intro a ha
    by_cases hau : a = u
    · subst hau
      simp [Function.comp, hq]
    · have hbeq : (a.id == u.id) = false := by
        simp only [beq_eq_false_iff_ne, ne_eq]
        exact fun h => hau (hId a ha h)
      simp [Function.comp, hbeq, hother a ha hau]
  rw [hnone]
  rfl

/-- Writing a record back unchanged leaves the collection unchanged. -/
theorem updateById_self {db : List UserDoc} {u : UserDoc}
    (hId : ∀ v ∈ db, v.id = u.id → v = u) :
    updateById db u.id u = db := by
  unfold updateById
  have h : db.map (fun v => if v.id == u.id then u else v) = db.map id := by
    apply List.map_congr_left
    intro a ha
    by_cases hau : a.id = u.id
    · simp [hau, hId a ha hau]
    · simp [hau]
  simpa using h

/-- Every record of the written-back collection is the new record or an old one. -/
theorem mem_updateById {db : List UserDoc} {i : Nat} {u2 v : UserDoc}
    (hv : v ∈ updateById db i u2) : v = u2 ∨ v ∈ db := by
  unfold updateById at hv
  rcases List.mem_map.mp hv with ⟨a, ha, hfa⟩
  by_cases h : a.id = i
  · left
    simpa [h] using hfa.symm
  · right
    rw [← hfa]
    simpa [h] using ha

/-- Functionality of ids survives a write-back that keeps the id. -/
theorem hId_updateById {db : List UserDoc} {u u2 : UserDoc}
    (hid2 : u2.id = u.id) :
    ∀ v ∈ updateById db u.id u2, v.id = u2.id → v = u2 := by
  intro v hv hvid
  rcases List.mem_map.mp hv with ⟨a, ha, hfa⟩
  by_cases h : a.id = u.id
  · simpa [h] using hfa.symm
  · exfalso
    have hva : v = a := by simpa [h] using hfa.symm
    rw [hva] at hvid
    exact h (hvid.trans hid2)

/-- A nonempty request-body string field is truthy. -/
theorem strTruthy_of_ne {s : String} (h : s ≠ "") : strTruthy (some s) = true := by
  have he : s.isEmpty = false := by
    cases he : s.isEmpty
    · rfl
    · exact absurd ((String.isEmpty_iff s).mp he) h
  simp [strTruthy, he]

/-- Claim C1 counterexample: `annU` is a Password account with
`emailVerified = false`, yet Login with a non-matching password fails with
401 (bad credentials), not 403 (ForbiddenError), because `loginUser`
compares the password before checking `emailVerified`. -/
theorem C1_counterexample :
    annU.isGoogleAuth = false ∧
    annU.emailVerified = false ∧
    strTruthy annU.password = true ∧
    demoCompare "wrongpass" (annU.password.getD "") = false ∧
    (loginUser demoCompare (some "ann@x.com") (some "wrongpass") [annU]).1.status = 401 ∧
    ¬(loginUser demoCompare (some "ann@x.com") (some "wrongpass") [annU]).1.status = 403 := by
  decide

/-- Claim C1 (amended): for a Password account with `emailVerified = false`,
Login fails with ForbiddenError 403 (and `requiresVerification`) exactly when
the supplied password matches, and with 401 when it does not — the password
is compared before the verification gate; the collection is not mutated. -/
theorem C1_unverified_login (bcompare : String → String → Bool)
    (email pw : String) (db : List UserDoc) (u : UserDoc)
    (hemail : email ≠ "") (hpw : pw ≠ "")
    (hfind : findByEmail db email = some u)
    (hg : u.isGoogleAuth = false)
    (hpass : strTruthy u.password = true)
    (hver : u.emailVerified = false) :
    ((loginUser bcompare (some email) (some pw) db).1.status
      = if bcompare pw (u.password.getD "") = true then 403 else 401) ∧
    ((loginUser bcompare (some email) (some pw) db).1.requiresVerification
      = if bcompare pw (u.password.getD "") = true then some true else none) ∧
    (loginUser bcompare (some email) (some pw) db).2 = db := by
  unfold loginUser
  rw [strTruthy_of_ne hemail, strTruthy_of_ne hpw]
  simp only [Bool.not_true, Bool.or_self, Bool.false_or, if_false, Option.getD_some]
  rw [hfind]
  simp only [hg, hpass, hver, Bool.not_true, if_false]
  cases hc : bcompare pw (u.password.getD "")
  · simp [errResp]
  · simp

/-- Claim C1 witness: the amended statement instantiated on `annU` with the
correct and the wrong password outcome visible in the `if`. -/
theorem C1_unverified_login_witness :
    ((loginUser demoCompare (some "ann@x.com") (some "password1") [annU]).1.status
      = if demoCompare "password1" (annU.password.getD "") = true then 403 else 401) ∧
    ((loginUser demoCompare (some "ann@x.com") (some "password1") [annU]).1.requiresVerification
      = if demoCompare "password1" (annU.password.getD "") = true then some true else none) ∧
    (loginUser demoCompare (some "ann@x.com") (some "password1") [annU]).2 = [annU] := by
  exact C1_unverified_login demoCompare "ann@x.com" "password1" [annU] annU
    (by decide) (by decide) (by decide) (by decide) (by decide) (by decide)

/-- Claim C9: the session-authenticator middleware leaves the user collection
untouched in every case, fails with 401 when the bearer token is missing,
malformed, unresolvable (bad signature or expired) or resolves to an id with
no account, and on success attaches the resolved account's id. -/
theorem C9_auth_middleware_read_only (resolve : String → Option Nat)
    (authHeader : Option String) (db : List UserDoc) :
    (authMiddleware resolve authHeader db).2 = db ∧
    (authHeader = none →
      (authMiddleware resolve authHeader db).1
        = .denied (errResp 401 "Not authorized, token missing")) ∧
    (∀ h, authHeader = some h → jsStartsWith h "Bearer " = false →
      (authMiddleware resolve authHeader db).1
        = .denied (errResp 401 "Not authorized, token missing")) ∧
    (∀ h, authHeader = some h → jsStartsWith h "Bearer " = true →
      resolve ((jsSplitOnSpace h).getD 1 "") = none →
      (authMiddleware resolve authHeader db).1
        = .denied (errResp 401 "Token invalid or expired")) ∧
    (∀ h i, authHeader = some h → jsStartsWith h "Bearer " = true →
      resolve ((jsSplitOnSpace h).getD 1 "") = some i → findById db i = none →
      (authMiddleware resolve authHeader db).1
        = .denied (errResp 401 "User not found")) ∧
    (∀ h i u, authHeader = some h → jsStartsWith h "Bearer " = true →
      resolve ((jsSplitOnSpace h).getD 1 "") = some i → findById db i = some u →
      (authMiddleware resolve authHeader db).1 = .ok u.id) := by
  refine ⟨?_, ?_, ?_, ?_, ?_, ?_⟩
  · unfold authMiddleware
    cases authHeader with
    | none => rfl
    | some h =>
      dsimp only
      cases hs : jsStartsWith h "Bearer "
      · rw [if_pos (by decide)]
      · rw [if_neg (by decide)]
        cases hr : resolve ((jsSplitOnSpace h).getD 1 "") with
        | none => rfl
        | some i =>
          dsimp only
          cases hf : findById db i with
          | none => rfl
          | some u => rfl
  · intro hn
    subst hn
    rfl
  · intro h hh hs
    subst hh
    unfold authMiddleware
    dsimp only
    rw [hs, if_pos (by decide)]
  · intro h hh hs hr
    subst hh
    unfold authMiddleware
    dsimp only
    rw [hs, if_neg (by decide), hr]
  · intro h i hh hs hr hf
    subst hh
    unfold authMiddleware
    dsimp only
    rw [hs, if_neg (by decide), hr]
    dsimp only
    rw [hf]
  · intro h i u hh hs hr hf
    subst hh
    unfold authMiddleware
    dsimp only
    rw [hs, if_neg (by decide), hr]
    dsimp only
    rw [hf]

/-- Claim C9 witness: the middleware instantiated on a resolvable bearer
token for an existing account, and its success and no-mutation conclusions. -/
theorem C9_auth_middleware_read_only_witness :
    (authMiddleware demoResolve (some "Bearer T") [annV]).2 = [annV] ∧
    (authMiddleware demoResolve (some "Bearer T") [annV]).1 = .ok annV.id := by
  refine ⟨(C9_auth_middleware_read_only demoResolve (some "Bearer T") [annV]).1, ?_⟩
  exact (C9_auth_middleware_read_only demoResolve (some "Bearer T") [annV]).2.2.2.2.2
    "Bearer T" 1 annV rfl (by decide) (by decide) (by decide)

/-- Claim C2 counterexample: `annV` is a verified password-only account whose
password login succeeds (200).  After the Google flow links it
(`googleId` set, `isGoogleAuth = true`, password retained), the same login
with the same correct password fails with 401 and no token: the linked state
does not enable dual login paths. -/
theorem C2_counterexample :
    annV.isGoogleAuth = false ∧
    strTruthy annV.password = true ∧
    annV.googleId = none ∧
    (loginUser demoCompare (some "ann@x.com") (some "password1") [annV]).1.status = 200 ∧
    (googleAuthCore "Ann" "ann@x.com" "pic" "g1" 7 [annV]).2
      = [{ annV with googleId := some "g1", isGoogleAuth := true, emailVerified := true, picture := "pic" }] ∧
    (loginUser demoCompare (some "ann@x.com") (some "password1")
      ((googleAuthCore "Ann" "ann@x.com" "pic" "g1" 7 [annV]).2)).1.status = 401 ∧
    (loginUser demoCompare (some "ann@x.com") (some "password1")
      ((googleAuthCore "Ann" "ann@x.com" "pic" "g1" 7 [annV]).2)).1.token = none := by
  decide

/-- Claim C2 (amended): the Google flow does link a password-only account —
`googleId` set, `isGoogleAuth = true`, `emailVerified = true`, password hash
retained, token issued — but a subsequent Login with the account's email and
original correct (or any) password fails with 401 "Please use 'Continue with
Google' to login.": after linking only the Google path works, because
`loginUser` rejects every `isGoogleAuth` account before comparing passwords. -/
theorem C2_link_blocks_password_login (bcompare : String → String → Bool)
    (name email picture googleId pw : String) (freshId : Nat)
    (db : List UserDoc) (u : UserDoc)
    (hemail : email ≠ "") (hpw : pw ≠ "")
    (hfind : findByEmail db email = some u)
    (hId : ∀ v ∈ db, v.id = u.id → v = u)
    (hg : u.isGoogleAuth = false)
    (hpass : strTruthy u.password = true) :
    (googleAuthCore name email picture googleId freshId db).2
      = updateById db u.id { u with googleId := some googleId, isGoogleAuth := true, emailVerified := true, picture := if !picture.isEmpty then picture else u.picture } ∧
    findByEmail (googleAuthCore name email picture googleId freshId db).2 email
      = some { u with googleId := some googleId, isGoogleAuth := true, emailVerified := true, picture := if !picture.isEmpty then picture else u.picture } ∧
    (googleAuthCore name email picture googleId freshId db).1.token = some (createToken u.id) ∧
    (loginUser bcompare (some email) (some pw)
      (googleAuthCore name email picture googleId freshId db).2).1.status = 401 ∧
    (loginUser bcompare (some email) (some pw)
      (googleAuthCore name email picture googleId freshId db).2).1.message
        = "Please use 'Continue with Google' to login." ∧
    (loginUser bcompare (some email) (some pw)
      (googleAuthCore name email picture googleId freshId db).2).2
        = (googleAuthCore name email picture googleId freshId db).2 := by
  have hga : googleAuthCore name email picture googleId freshId db
      = ({ status := 200
           success := true
           message := "Google authentication successful"
           token := some (createToken u.id)
           user := some { id := u.id, name := u.name, email := u.email, picture := if !picture.isEmpty then picture else u.picture, emailVerified := true } },
         updateById db u.id { u with googleId := some googleId, isGoogleAuth := true, emailVerified := true, picture := if !picture.isEmpty then picture else u.picture }) := by
    unfold googleAuthCore
    rw [hfind]
    dsimp only
    rw [hg, hpass]
    rw [if_pos (by decide)]
  have hfindu : db.find? (fun v => v.email == jsToLower email) = some u := hfind
  have hpu := List.find?_some hfindu
  have hfind2 : findByEmail (googleAuthCore name email picture googleId freshId db).2 email
      = some { u with googleId := some googleId, isGoogleAuth := true, emailVerified := true, picture := if !picture.isEmpty then picture else u.picture } := by
    rw [hga]
    show (updateById db u.id _).find? (fun v => v.email == jsToLower email) = _
    exact find?_updateById hfindu hId hpu (fun v _ _ => rfl)
  have hlogin : loginUser bcompare (some email) (some pw)
      (googleAuthCore name email picture googleId freshId db).2
      = (errResp 401 "Please use 'Continue with Google' to login.",
         (googleAuthCore name email picture googleId freshId db).2) := by
    unfold loginUser
    rw [strTruthy_of_ne hemail, strTruthy_of_ne hpw]
    rw [if_neg (by decide)]
    simp only [Option.getD_some]
    rw [hfind2]
    rfl
  exact ⟨by rw [hga], hfind2, by rw [hga], by rw [hlogin]; rfl, by rw [hlogin]; rfl,
    by rw [hlogin]⟩

/-- Claim C2 witness: the amended statement instantiated on the concrete
verified password-only account `annV`. -/
theorem C2_link_blocks_password_login_witness :
    (googleAuthCore "Ann" "ann@x.com" "pic" "g1" 7 [annV]).2
      = updateById [annV] annV.id { annV with googleId := some "g1", isGoogleAuth := true, emailVerified := true, picture := if !("pic" : String).isEmpty then "pic" else annV.picture } ∧
    findByEmail (googleAuthCore "Ann" "ann@x.com" "pic" "g1" 7 [annV]).2 "ann@x.com"
      = some { annV with googleId := some "g1", isGoogleAuth := true, emailVerified := true, picture := if !("pic" : String).isEmpty then "pic" else annV.picture } ∧
    (googleAuthCore "Ann" "ann@x.com" "pic" "g1" 7 [annV]).1.token = some (createToken annV.id) ∧
    (loginUser demoCompare (some "ann@x.com") (some "password1")
      (googleAuthCore "Ann" "ann@x.com" "pic" "g1" 7 [annV]).2).1.status = 401 ∧
    (loginUser demoCompare (some "ann@x.com") (some "password1")
      (googleAuthCore "Ann" "ann@x.com" "pic" "g1" 7 [annV]).2).1.message
        = "Please use 'Continue with Google' to login." ∧
    (loginUser demoCompare (some "ann@x.com") (some "password1")
      (googleAuthCore "Ann" "ann@x.com" "pic" "g1" 7 [annV]).2).2
        = (googleAuthCore "Ann" "ann@x.com" "pic" "g1" 7 [annV]).2 := by
  exact C2_link_blocks_password_login demoCompare "Ann" "ann@x.com" "pic" "g1" "password1" 7
    [annV] annV (by decide) (by decide) (by decide)
    (by
      intro v hv _
      rw [List.mem_singleton] at hv
      exact hv)
    (by decide) (by decide)

/-- Claim C3: with a pending, non-expired verification and a matching code,
`verifyEmail` succeeds (200, token issued), sets `emailVerified = true` and
clears the verification record; replaying the same request immediately fails
with the no-pending-verification error (400, "Invalid or expired verification
code.") and changes nothing, so the transition happens exactly once. -/
theorem C3_verify_exactly_once
    (now : Nat) (email code : String) (db : List UserDoc) (u : UserDoc)
    (hemail : email ≠ "") (hcode : code ≠ "")
    (hfind : verifyFind db email now = some u)
    (hId : ∀ v ∈ db, v.id = u.id → v = u)
    (hEm : ∀ v ∈ db, v.email = u.email → v = u)
    (_hver : u.emailVerified = false)
    (hatt : u.otpAttempts < 5)
    (htok : u.verificationToken = some code) :
    (verifyEmail now (some email) (some code) db).1.status = 200 ∧
    (verifyEmail now (some email) (some code) db).1.success = true ∧
    (verifyEmail now (some email) (some code) db).1.token = some (createToken u.id) ∧
    findByEmail (verifyEmail now (some email) (some code) db).2 email
      = some { u with emailVerified := true, verificationToken := none, verificationTokenExpiresAt := none, otpAttempts := 0 } ∧
    (verifyEmail now (some email) (some code)
      (verifyEmail now (some email) (some code) db).2).1.status = 400 ∧
    (verifyEmail now (some email) (some code)
      (verifyEmail now (some email) (some code) db).2).1.message
        = "Invalid or expired verification code." ∧
    (verifyEmail now (some email) (some code)
      (verifyEmail now (some email) (some code) db).2).2
        = (verifyEmail now (some email) (some code) db).2 := by
  have hfindu : db.find? (fun v => v.email == jsToLower email && expPending v now) = some u :=
    hfind
  have hpu := List.find?_some hfindu
  have hemail_eq : u.email = jsToLower email :=
    eq_of_beq ((Bool.and_eq_true _ _).mp hpu).1
  have hother : ∀ v ∈ db, v ≠ u →
      (fun v => v.email == jsToLower email) v
        = (fun v => v.email == jsToLower email && expPending v now) v := by
    intro v hv hne
    have hvne : v.email ≠ u.email := fun he => hne (hEm v hv he)
    rw [hemail_eq] at hvne
    have hq : (v.email == jsToLower email) = false := by
      rw [beq_eq_false_iff_ne]
      exact hvne
    show (v.email == jsToLower email) = (v.email == jsToLower email && expPending v now)
    rw [hq, Bool.false_and]
  have hv1 : verifyEmail now (some email) (some code) db
      = ({ status := 200
           success := true
           message := "Email verified successfully!"
           token := some (createToken u.id)
           user := some { id := u.id, name := u.name, email := u.email, picture := u.picture, emailVerified := true } },
         updateById db u.id { u with emailVerified := true, verificationToken := none, verificationTokenExpiresAt := none, otpAttempts := 0 }) := by
    unfold verifyEmail
    rw [strTruthy_of_ne hemail, strTruthy_of_ne hcode, if_neg (by decide)]
    dsimp only [Option.getD_some]
    rw [hfind]
    dsimp only
    rw [if_neg (by omega), htok, if_neg (by simp)]
  have hfind2 : findByEmail (verifyEmail now (some email) (some code) db).2 email
      = some { u with emailVerified := true, verificationToken := none, verificationTokenExpiresAt := none, otpAttempts := 0 } := by
    rw [hv1]
    show (updateById db u.id _).find? (fun v => v.email == jsToLower email) = _
    exact find?_updateById hfindu hId ((Bool.and_eq_true _ _).mp hpu).1 hother
  have hnone : verifyFind (verifyEmail now (some email) (some code) db).2 email now = none := by
    rw [hv1]
    show (updateById db u.id _).find?
      (fun v => v.email == jsToLower email && expPending v now) = none
    apply find?_updateById_none hfindu hId
    · show (_ && expPending _ now) = false
      rw [show expPending { u with emailVerified := true, verificationToken := none, verificationTokenExpiresAt := none, otpAttempts := 0 } now = false from rfl]
      rw [Bool.and_false]
    · intro v hv hne
      have hvne : v.email ≠ u.email := fun he => hne (hEm v hv he)
      rw [hemail_eq] at hvne
      have hq : (v.email == jsToLower email) = false := by
        rw [beq_eq_false_iff_ne]
        exact hvne
      show (v.email == jsToLower email && expPending v now) = false
      rw [hq, Bool.false_and]
  have hv2 : verifyEmail now (some email) (some code) (verifyEmail now (some email) (some code) db).2
      = (errResp 400 "Invalid or expired verification code.",
         (verifyEmail now (some email) (some code) db).2) := by
    conv in verifyEmail now (some email) (some code) (verifyEmail now (some email) (some code) db).2 =>
      rw [verifyEmail]
    rw [strTruthy_of_ne hemail, strTruthy_of_ne hcode, if_neg (by decide)]
    dsimp only [Option.getD_some]
    rw [hnone]
  refine ⟨by rw [hv1], by rw [hv1], by rw [hv1], hfind2, by rw [hv2]; rfl,
    by rw [hv2]; rfl, by rw [hv2]⟩

/-- Claim C3 witness: the exactly-once behaviour on the concrete pending
account `annU` with its matching code. -/
theorem C3_verify_exactly_once_witness :
    (verifyEmail 500 (some "ann@x.com") (some "123456") [annU]).1.status = 200 ∧
    (verifyEmail 500 (some "ann@x.com") (some "123456") [annU]).1.success = true ∧
    (verifyEmail 500 (some "ann@x.com") (some "123456") [annU]).1.token = some (createToken annU.id) ∧
    findByEmail (verifyEmail 500 (some "ann@x.com") (some "123456") [annU]).2 "ann@x.com"
      = some { annU with emailVerified := true, verificationToken := none, verificationTokenExpiresAt := none, otpAttempts := 0 } ∧
    (verifyEmail 500 (some "ann@x.com") (some "123456")
      (verifyEmail 500 (some "ann@x.com") (some "123456") [annU]).2).1.status = 400 ∧
    (verifyEmail 500 (some "ann@x.com") (some "123456")
      (verifyEmail 500 (some "ann@x.com") (some "123456") [annU]).2).1.message
        = "Invalid or expired verification code." ∧
    (verifyEmail 500 (some "ann@x.com") (some "123456")
      (verifyEmail 500 (some "ann@x.com") (some "123456") [annU]).2).2
        = (verifyEmail 500 (some "ann@x.com") (some "123456") [annU]).2 := by
  exact C3_verify_exactly_once 500 "ann@x.com" "123456" [annU] annU
    (by decide) (by decide) (by decide)
    (by
      intro v hv _
      rw [List.mem_singleton] at hv
      exact hv)
    (by
      intro v hv _
      rw [List.mem_singleton] at hv
      exact hv)
    (by decide) (by decide) (by decide)

/-- Writing any record back over a member of the collection puts the new
record in the collection. -/
theorem self_mem_updateById {db : List UserDoc} {u u2 : UserDoc}
    (hu : u ∈ db) : u2 ∈ updateById db u.id u2 := by
  unfold updateById
  exact List.mem_map.mpr ⟨u, hu, by simp⟩

/-- Claim C5: on a pending, non-expired verification with attempts < 5 and a
non-matching code, `verifyEmail` increments the attempt counter, persists it,
fails with 400, and reports `5 - (attempts + 1)` remaining attempts in the
exact message the handler builds. -/
theorem C5_invalid_code_increments
    (now : Nat) (email code stored : String) (db : List UserDoc) (u : UserDoc)
    (hemail : email ≠ "") (hcode : code ≠ "")
    (hfind : verifyFind db email now = some u)
    (hatt : u.otpAttempts < 5)
    (hstored : u.verificationToken = some stored)
    (hne : stored ≠ code) :
    (verifyEmail now (some email) (some code) db).1.status = 400 ∧
    (verifyEmail now (some email) (some code) db).1.success = false ∧
    (verifyEmail now (some email) (some code) db).1.message
      = attemptsMsg (5 - (u.otpAttempts + 1)) ∧
    (verifyEmail now (some email) (some code) db).2
      = updateById db u.id { u with otpAttempts := u.otpAttempts + 1 } ∧
    { u with otpAttempts := u.otpAttempts + 1 } ∈ (verifyEmail now (some email) (some code) db).2 := by
  have hv : verifyEmail now (some email) (some code) db
      = (errResp 400 (attemptsMsg (5 - (u.otpAttempts + 1))),
         updateById db u.id { u with otpAttempts := u.otpAttempts + 1 }) := by
    unfold verifyEmail
    rw [strTruthy_of_ne hemail, strTruthy_of_ne hcode, if_neg (by decide)]
    dsimp only [Option.getD_some]
    rw [hfind]
    dsimp only
    rw [if_neg (by omega), hstored, if_pos (by simp [hne])]
  have hu : u ∈ db := List.mem_of_find?_eq_some hfind
  refine ⟨by rw [hv]; rfl, by rw [hv]; rfl, by rw [hv]; rfl, by rw [hv], ?_⟩
  rw [hv]
  exact self_mem_updateById hu

/-- Claim C5 witness: the wrong code "000000" against `annU` (stored code
"123456", zero prior attempts). -/
theorem C5_invalid_code_increments_witness :
    (verifyEmail 500 (some "ann@x.com") (some "000000") [annU]).1.status = 400 ∧
    (verifyEmail 500 (some "ann@x.com") (some "000000") [annU]).1.success = false ∧
    (verifyEmail 500 (some "ann@x.com") (some "000000") [annU]).1.message
      = attemptsMsg (5 - (annU.otpAttempts + 1)) ∧
    (verifyEmail 500 (some "ann@x.com") (some "000000") [annU]).2
      = updateById [annU] annU.id { annU with otpAttempts := annU.otpAttempts + 1 } ∧
    { annU with otpAttempts := annU.otpAttempts + 1 }
      ∈ (verifyEmail 500 (some "ann@x.com") (some "000000") [annU]).2 := by
  exact C5_invalid_code_increments 500 "ann@x.com" "000000" "123456" [annU] annU
    (by decide) (by decide) (by decide) (by decide) (by decide) (by decide)

/-- Claim C4: the attempt counter never exceeds 5 — when `otpAttempts ≥ 5`,
`verifyEmail` fails with 429 before comparing any code and without mutating
anything; `verifyEmail` preserves the `≤ 5` bound on every record; and
`resendOTP` on an unverified account installs the fresh OTP with the counter
reset to 0 (re-enabling checks), persisting it. -/
theorem C4_attempts_capped :
    (∀ (now : Nat) (email code : String) (db : List UserDoc) (u : UserDoc),
       email ≠ "" → code ≠ "" →
       verifyFind db email now = some u → 5 ≤ u.otpAttempts →
       (verifyEmail now (some email) (some code) db).1.status = 429 ∧
       (verifyEmail now (some email) (some code) db).2 = db) ∧
    (∀ (now : Nat) (email code : Option String) (db : List UserDoc),
       (∀ v ∈ db, v.otpAttempts ≤ 5) →
       ∀ v ∈ (verifyEmail now email code db).2, v.otpAttempts ≤ 5) ∧
    (∀ (now : Nat) (otp : String) (sent : Bool) (email : String) (db : List UserDoc) (u : UserDoc),
       email ≠ "" →
       findByEmail db email = some u → u.emailVerified = false →
       (resendOTP now otp sent (some email) db).2
         = updateById db u.id { u with verificationToken := some otp, verificationTokenExpiresAt := some (now + 10 * 60 * 1000), otpAttempts := 0 } ∧
       { u with verificationToken := some otp, verificationTokenExpiresAt := some (now + 10 * 60 * 1000), otpAttempts := 0 }
         ∈ (resendOTP now otp sent (some email) db).2) := by
  refine ⟨?_, ?_, ?_⟩
  · intro now email code db u hemail hcode hfind hblock
    have hv : verifyEmail now (some email) (some code) db
        = (errResp 429 "Too many failed attempts. Please request a new code.", db) := by
      unfold verifyEmail
      rw [strTruthy_of_ne hemail, strTruthy_of_ne hcode, if_neg (by decide)]
      dsimp only [Option.getD_some]
      rw [hfind]
      dsimp only
      rw [if_pos hblock]
    exact ⟨by rw [hv]; rfl, by rw [hv]⟩
  · intro now email code db hinv
    unfold verifyEmail
    split
    · exact hinv
    · dsimp only
      cases hf : verifyFind db (email.getD "") now with
      | none => exact hinv
      | some u =>
        dsimp only
        have hu : u ∈ db := List.mem_of_find?_eq_some hf
        by_cases hb : 5 ≤ u.otpAttempts
        · rw [if_pos hb]
          exact hinv
        · rw [if_neg hb]
          by_cases hm : (u.verificationToken != some (code.getD "")) = true
          · rw [if_pos hm]
            intro v hv
            rcases mem_updateById hv with rfl | hvdb
            · show u.otpAttempts + 1 ≤ 5
              omega
            · exact hinv v hvdb
          · rw [if_neg hm]
            intro v hv
            rcases mem_updateById hv with rfl | hvdb
            · show (0 : Nat) ≤ 5
              omega
            · exact hinv v hvdb
  · intro now otp sent email db u hemail hfind hver
    have hv : (resendOTP now otp sent (some email) db).2
        = updateById db u.id { u with verificationToken := some otp, verificationTokenExpiresAt := some (now + 10 * 60 * 1000), otpAttempts := 0 } := by
      unfold resendOTP
      rw [strTruthy_of_ne hemail, if_neg (by decide)]
      dsimp only [Option.getD_some]
      rw [hfind]
      dsimp only
      rw [if_neg (by simp [hver])]
      cases sent
      · rw [if_pos (by decide)]
      · rw [if_neg (by decide)]
    have hu : u ∈ db := List.mem_of_find?_eq_some hfind
    refine ⟨hv, ?_⟩
    rw [hv]
    exact self_mem_updateById hu

/-- Claim C4 witness: the blocked account (5 attempts) is refused with 429
and unchanged, the bound is preserved, and a resend resets the counter. -/
theorem C4_attempts_capped_witness :
    ((verifyEmail 500 (some "ann@x.com") (some "123456")
        [{ annU with otpAttempts := 5 }]).1.status = 429 ∧
     (verifyEmail 500 (some "ann@x.com") (some "123456")
        [{ annU with otpAttempts := 5 }]).2 = [{ annU with otpAttempts := 5 }]) ∧
    (∀ v ∈ (verifyEmail 500 (some "ann@x.com") (some "000000") [annU]).2,
       v.otpAttempts ≤ 5) ∧
    ((resendOTP 600 "654321" true (some "ann@x.com") [{ annU with otpAttempts := 5 }]).2
       = updateById [{ annU with otpAttempts := 5 }] annU.id
           { annU with verificationToken := some "654321", verificationTokenExpiresAt := some (600 + 10 * 60 * 1000), otpAttempts := 0 } ∧
     { annU with verificationToken := some "654321", verificationTokenExpiresAt := some (600 + 10 * 60 * 1000), otpAttempts := 0 }
       ∈ (resendOTP 600 "654321" true (some "ann@x.com") [{ annU with otpAttempts := 5 }]).2) := by
  refine ⟨?_, ?_, ?_⟩
  · exact C4_attempts_capped.1 500 "ann@x.com" "123456" [{ annU with otpAttempts := 5 }]
      { annU with otpAttempts := 5 } (by decide) (by decide) (by decide) (by decide)
  · exact C4_attempts_capped.2.1 500 (some "ann@x.com") (some "000000") [annU]
      (by decide)
  · exact C4_attempts_capped.2.2 600 "654321" true "ann@x.com"
      [{ annU with otpAttempts := 5 }] { annU with otpAttempts := 5 }
      (by decide) (by decide) (by decide)

/-- The OTP generator's output range: `Math.floor(100000 + r * 900000)` with
`0 ≤ r < 1` always lies in `[100000, 999999]`. -/
theorem generateOTP_bounds {r : ℚ} (h0 : 0 ≤ r) (h1 : r < 1) :
    100000 ≤ generateOTP r ∧ generateOTP r ≤ 999999 := by
  unfold generateOTP
  have hfl : (100000 : ℤ) ≤ ⌊(100000 : ℚ) + r * 900000⌋ := by
    rw [Int.le_floor]
    push_cast
    nlinarith
  have hfu : ⌊(100000 : ℚ) + r * 900000⌋ < 1000000 := by
    rw [Int.floor_lt]
    push_cast
    nlinarith
  omega

/-- Every generated OTP has exactly 6 decimal digits. -/
theorem generateOTP_digits_len {r : ℚ} (h0 : 0 ≤ r) (h1 : r < 1) :
    (Nat.digits 10 (generateOTP r)).length = 6 := by
  have hb := generateOTP_bounds h0 h1
  have hn0 : generateOTP r ≠ 0 := by omega
  have hlog : Nat.log 10 (generateOTP r) = 5 :=
    Nat.log_eq_of_pow_le_of_lt_pow (by norm_num; omega) (by norm_num; omega)
  rw [Nat.digits_len 10 _ (by norm_num) hn0, hlog]

/-- The leading (most significant) decimal digit of a generated OTP is never
zero, so no OTP string begins with '0'. -/
theorem generateOTP_no_leading_zero {r : ℚ} (h0 : 0 ≤ r) (h1 : r < 1) :
    (Nat.digits 10 (generateOTP r)).getLast? ≠ some 0 := by
  have hb := generateOTP_bounds h0 h1
  have hn0 : generateOTP r ≠ 0 := by omega
  have hlen := generateOTP_digits_len h0 h1
  have hnil : Nat.digits 10 (generateOTP r) ≠ [] := by
    intro h
    rw [h] at hlen
    simp at hlen
  have hlast := Nat.getLast_digit_ne_zero 10 hn0
  rw [List.getLast?_eq_getLast _ hnil]
  intro h
  exact hlast (Option.some.inj h)

/-- Claim C6 counterexample: no output of the OTP generator is below 100000
and none has leading digit 0 — contradicting the claim that leading zeros
occur ("some outputs begin with '0'").  `Math.floor(100000 + r * 900000)`
ranges over [100000, 999999] only. -/
theorem C6_counterexample :
    (¬ ∃ r : ℚ, 0 ≤ r ∧ r < 1 ∧ generateOTP r < 100000) ∧
    (¬ ∃ r : ℚ, 0 ≤ r ∧ r < 1 ∧ (Nat.digits 10 (generateOTP r)).getLast? = some 0) := by
  constructor
  · rintro ⟨r, h0, h1, hlt⟩
    have hb := generateOTP_bounds h0 h1
    omega
  · rintro ⟨r, h0, h1, hz⟩
    exact generateOTP_no_leading_zero h0 h1 hz

/-- Claim C6 (amended): every generated OTP is a 6-digit code in the range
[100000, 999999] — so the string always has exactly 6 digits but never a
leading zero — and registration stores it with expiry exactly
`now + 600000` ms (10 minutes after issuance). -/
theorem C6_otp_amended (r : ℚ) (now : Nat) (h0 : 0 ≤ r) (h1 : r < 1) :
    100000 ≤ generateOTP r ∧
    generateOTP r ≤ 999999 ∧
    (Nat.digits 10 (generateOTP r)).length = 6 ∧
    (Nat.digits 10 (generateOTP r)).getLast? ≠ some 0 ∧
    (∀ (isEmail : String → Bool) (hash : String → String) (freshId : Nat) (sent : Bool)
       (nm em pw : String) (db : List UserDoc),
       nm ≠ "" → em ≠ "" → pw ≠ "" → isEmail em = true → ¬pw.length < 8 →
       findByEmail db em = none →
       (registerUser isEmail hash now freshId (toString (generateOTP r)) sent
          (some nm) (some em) (some pw) db).2
         = db ++ [{ id := freshId, name := nm, email := jsToLower em, password := some (hash pw), googleId := none, picture := "", isGoogleAuth := false, emailVerified := false, verificationToken := some (toString (generateOTP r)), verificationTokenExpiresAt := some (now + 600000), otpAttempts := 0 }]) := by
  refine ⟨(generateOTP_bounds h0 h1).1, (generateOTP_bounds h0 h1).2,
    generateOTP_digits_len h0 h1, generateOTP_no_leading_zero h0 h1, ?_⟩
  intro isEmail hash freshId sent nm em pw db hnm hem hpw hisem hlen hfree
  unfold registerUser
  rw [strTruthy_of_ne hnm, strTruthy_of_ne hem, strTruthy_of_ne hpw]
  rw [if_neg (by decide)]
  dsimp only [Option.getD_some]
  rw [hisem, if_neg (by decide), if_neg hlen, hfree]
  dsimp only
  cases sent
  · rw [if_pos (by decide)]
  · rw [if_neg (by decide)]

/-- Claim C6 witness: the amended statement at `r = 1/2` with a concrete
registration storing the generated code. -/
theorem C6_otp_amended_witness :
    (100000 ≤ generateOTP (1/2) ∧ generateOTP (1/2) ≤ 999999) ∧
    (Nat.digits 10 (generateOTP (1/2))).length = 6 ∧
    (Nat.digits 10 (generateOTP (1/2))).getLast? ≠ some 0 ∧
    (registerUser demoIsEmail demoHash 100 1 (toString (generateOTP (1/2))) true
        (some "Ann") (some "ann@x.com") (some "password1") []).2
      = [] ++ [{ id := 1, name := "Ann", email := jsToLower "ann@x.com", password := some (demoHash "password1"), googleId := none, picture := "", isGoogleAuth := false, emailVerified := false, verificationToken := some (toString (generateOTP (1/2))), verificationTokenExpiresAt := some (100 + 600000), otpAttempts := 0 }] := by
  have h := C6_otp_amended (1/2) 100 (by norm_num) (by norm_num)
  exact ⟨⟨h.1, h.2.1⟩, h.2.2.1, h.2.2.2.1,
    h.2.2.2.2 demoIsEmail demoHash 1 true "Ann" "ann@x.com" "password1" []
      (by decide) (by decide) (by decide) (by decide) (by decide) rfl⟩

/-- Claim C7: after any valid first registration of an email (whether or not
the verification email sent), a second Register with the same email under any
letter-casing fails with 409 and leaves the collection unchanged — no second
account is created. -/
theorem C7_duplicate_register
    (isEmail : String → Bool) (hash : String → String)
    (now1 now2 id1 id2 : Nat) (otp1 otp2 : String) (sent1 sent2 : Bool)
    (nm1 nm2 em1 em2 pw1 pw2 : String) (db : List UserDoc)
    (hnm1 : nm1 ≠ "") (hem1 : em1 ≠ "") (hpw1 : pw1 ≠ "") (hpw1l : ¬pw1.length < 8)
    (hisem1 : isEmail em1 = true)
    (hnm2 : nm2 ≠ "") (hem2 : em2 ≠ "") (hpw2 : pw2 ≠ "") (hpw2l : ¬pw2.length < 8)
    (hisem2 : isEmail em2 = true)
    (hcase : jsToLower em2 = jsToLower em1)
    (hfree : findByEmail db em1 = none) :
    (registerUser isEmail hash now2 id2 otp2 sent2 (some nm2) (some em2) (some pw2)
       (registerUser isEmail hash now1 id1 otp1 sent1 (some nm1) (some em1) (some pw1) db).2).1.status = 409 ∧
    (registerUser isEmail hash now2 id2 otp2 sent2 (some nm2) (some em2) (some pw2)
       (registerUser isEmail hash now1 id1 otp1 sent1 (some nm1) (some em1) (some pw1) db).2).1.success = false ∧
    (registerUser isEmail hash now2 id2 otp2 sent2 (some nm2) (some em2) (some pw2)
       (registerUser isEmail hash now1 id1 otp1 sent1 (some nm1) (some em1) (some pw1) db).2).2
      = (registerUser isEmail hash now1 id1 otp1 sent1 (some nm1) (some em1) (some pw1) db).2 := by
  have h1 : (registerUser isEmail hash now1 id1 otp1 sent1 (some nm1) (some em1) (some pw1) db).2
      = db ++ [{ id := id1, name := nm1, email := jsToLower em1, password := some (hash pw1), googleId := none, picture := "", isGoogleAuth := false, emailVerified := false, verificationToken := some otp1, verificationTokenExpiresAt := some (now1 + 10 * 60 * 1000), otpAttempts := 0 }] := by
    unfold registerUser
    rw [strTruthy_of_ne hnm1, strTruthy_of_ne hem1, strTruthy_of_ne hpw1]
    rw [if_neg (by decide)]
    dsimp only [Option.getD_some]
    rw [hisem1, if_neg (by decide), if_neg hpw1l, hfree]
    dsimp only
    cases sent1
    · rw [if_pos (by decide)]
    · rw [if_neg (by decide)]
  have hfind2 : findByEmail (registerUser isEmail hash now1 id1 otp1 sent1 (some nm1) (some em1) (some pw1) db).2 em2
      = some { id := id1, name := nm1, email := jsToLower em1, password := some (hash pw1), googleId := none, picture := "", isGoogleAuth := false, emailVerified := false, verificationToken := some otp1, verificationTokenExpiresAt := some (now1 + 10 * 60 * 1000), otpAttempts := 0 } := by
    rw [h1]
    unfold findByEmail
    rw [List.find?_append]
    have hdbnone : db.find? (fun u => u.email == jsToLower em2) = none := by
      rw [hcase]
      exact hfree
    rw [hdbnone, Option.none_or]
    have hbeq : ((jsToLower em1 : String) == jsToLower em2) = true := by
      rw [hcase]
      exact beq_self_eq_true _
    exact List.find?_cons_of_pos _ hbeq
  have h2 : registerUser isEmail hash now2 id2 otp2 sent2 (some nm2) (some em2) (some pw2)
      (registerUser isEmail hash now1 id1 otp1 sent1 (some nm1) (some em1) (some pw1) db).2
      = ({ status := 409
           success := false
           message := "Email already registered but not verified. Please verify your email."
           requiresVerification := some true
           email := some (jsToLower em1) },
         (registerUser isEmail hash now1 id1 otp1 sent1 (some nm1) (some em1) (some pw1) db).2) := by
    generalize hdb1 : (registerUser isEmail hash now1 id1 otp1 sent1 (some nm1) (some em1) (some pw1) db).2 = db1 at hfind2 ⊢
    unfold registerUser
    rw [strTruthy_of_ne hnm2, strTruthy_of_ne hem2, strTruthy_of_ne hpw2]
    rw [if_neg (by decide)]
    dsimp only [Option.getD_some]
    rw [hisem2, if_neg (by decide), if_neg hpw2l, hfind2]
    rfl
  exact ⟨by rw [h2], by rw [h2], by rw [h2]⟩

/-- Claim C7 witness: registering "Ann@X.com" into the empty store, then
registering "ANN@x.COM" again yields 409 and no second account. -/
theorem C7_duplicate_register_witness :
    (registerUser demoIsEmail demoHash 200 2 "999999" true
       (some "Bnn") (some "ANN@x.COM") (some "password2")
       (registerUser demoIsEmail demoHash 100 1 "123456" true
          (some "Ann") (some "Ann@X.com") (some "password1") []).2).1.status = 409 ∧
    (registerUser demoIsEmail demoHash 200 2 "999999" true
       (some "Bnn") (some "ANN@x.COM") (some "password2")
       (registerUser demoIsEmail demoHash 100 1 "123456" true
          (some "Ann") (some "Ann@X.com") (some "password1") []).2).1.success = false ∧
    (registerUser demoIsEmail demoHash 200 2 "999999" true
       (some "Bnn") (some "ANN@x.COM") (some "password2")
       (registerUser demoIsEmail demoHash 100 1 "123456" true
          (some "Ann") (some "Ann@X.com") (some "password1") []).2).2
      = (registerUser demoIsEmail demoHash 100 1 "123456" true
          (some "Ann") (some "Ann@X.com") (some "password1") []).2 := by
  exact C7_duplicate_register demoIsEmail demoHash 100 200 1 2 "123456" "999999"
    true true "Ann" "Bnn" "Ann@X.com" "ANN@x.COM" "password1" "password2" []
    (by decide) (by decide) (by decide) (by decide) (by decide)
    (by decide) (by decide) (by decide) (by decide) (by decide)
    (by decide) (by decide)

/-- Evaluation of the Google flow on an account that is already fully linked
(`isGoogleAuth = true`, truthy `googleId`): the only branch taken is the
opportunistic picture refresh. -/
theorem googleAuthCore_linked (name email picture googleId : String) (fid : Nat)
    (db : List UserDoc) (w : UserDoc)
    (hfind : findByEmail db email = some w)
    (hg : w.isGoogleAuth = true)
    (hgid : strTruthy w.googleId = true) :
    googleAuthCore name email picture googleId fid db
      = ({ status := 200
           success := true
           message := "Google authentication successful"
           token := some (createToken w.id)
           user := some
             { id := (if !picture.isEmpty && w.picture != picture then { w with picture := picture } else w).id
               name := (if !picture.isEmpty && w.picture != picture then { w with picture := picture } else w).name
               email := (if !picture.isEmpty && w.picture != picture then { w with picture := picture } else w).email
               picture := (if !picture.isEmpty && w.picture != picture then { w with picture := picture } else w).picture
               emailVerified := (if !picture.isEmpty && w.picture != picture then { w with picture := picture } else w).emailVerified } },
         updateById db w.id (if !picture.isEmpty && w.picture != picture then { w with picture := picture } else w)) := by
  unfold googleAuthCore
  rw [hfind]
  dsimp only
  rw [hg, hgid]
  rw [if_neg (by simp), if_neg (by decide), if_pos rfl]

/-- Claim C8: for an already-linked account, the Google flow is idempotent —
the first run returns the existing account's id and changes at most the
stored picture (no account is created), and a second run with the same
verified profile returns the identical response and leaves the collection
exactly as the first run left it. -/
theorem C8_google_link_idempotent
    (name email picture googleId : String) (fid1 fid2 : Nat)
    (db : List UserDoc) (u : UserDoc)
    (hfind : findByEmail db email = some u)
    (hId : ∀ v ∈ db, v.id = u.id → v = u)
    (hg : u.isGoogleAuth = true)
    (hgid : strTruthy u.googleId = true) :
    ((googleAuthCore name email picture googleId fid1 db).1.user.map (fun w => w.id))
      = some u.id ∧
    (googleAuthCore name email picture googleId fid1 db).2
      = updateById db u.id (if !picture.isEmpty && u.picture != picture then { u with picture := picture } else u) ∧
    (googleAuthCore name email picture googleId fid1 db).2.length = db.length ∧
    (googleAuthCore name email picture googleId fid2
       (googleAuthCore name email picture googleId fid1 db).2).1
      = (googleAuthCore name email picture googleId fid1 db).1 ∧
    (googleAuthCore name email picture googleId fid2
       (googleAuthCore name email picture googleId fid1 db).2).2
      = (googleAuthCore name email picture googleId fid1 db).2 := by
  have hfindu : db.find? (fun v => v.email == jsToLower email) = some u := hfind
  have hpu := List.find?_some hfindu
  by_cases hpic : (!picture.isEmpty && u.picture != picture) = true
  · rw [if_pos hpic]
    have hga1 := googleAuthCore_linked name email picture googleId fid1 db u hfind hg hgid
    rw [if_pos hpic] at hga1
    have hfind2 : findByEmail (googleAuthCore name email picture googleId fid1 db).2 email
        = some { u with picture := picture } := by
      rw [hga1]
      show (updateById db u.id _).find? (fun v => v.email == jsToLower email) = _
      exact find?_updateById hfindu hId hpu (fun v _ _ => rfl)
    have hga2 := googleAuthCore_linked name email picture googleId fid2
      (googleAuthCore name email picture googleId fid1 db).2
      { u with picture := picture } hfind2 hg hgid
    have hc2 : ¬((!picture.isEmpty && ({ u with picture := picture } : UserDoc).picture != picture) = true) := by
      simp
    rw [if_neg hc2] at hga2
    refine ⟨by rw [hga1]; rfl, by rw [hga1], ?_, by rw [hga2, hga1], ?_⟩
    · rw [hga1]
      exact List.length_map db _
    · rw [hga2, hga1]
      exact updateById_self (hId_updateById rfl)
  · rw [if_neg hpic]
    have hga1 := googleAuthCore_linked name email picture googleId fid1 db u hfind hg hgid
    rw [if_neg hpic] at hga1
    have hupd : updateById db u.id u = db := updateById_self hId
    rw [hupd] at hga1
    have hfind2 : findByEmail (googleAuthCore name email picture googleId fid1 db).2 email
        = some u := by
      rw [hga1]
      exact hfind
    have hga2 := googleAuthCore_linked name email picture googleId fid2
      (googleAuthCore name email picture googleId fid1 db).2 u hfind2 hg hgid
    rw [if_neg hpic] at hga2
    refine ⟨by rw [hga1]; rfl, ?_, by rw [hga1], by rw [hga2, hga1], ?_⟩
    · rw [hga1, hupd]
    · rw [hga2, hga1]
      exact updateById_self hId

/-- Claim C8 witness: two successive Google-flow runs with the same profile
on the already-linked account `bobL`. -/
theorem C8_google_link_idempotent_witness :
    ((googleAuthCore "Bob" "bob@x.com" "p1" "g9" 99 [bobL]).1.user.map (fun w => w.id))
      = some bobL.id ∧
    (googleAuthCore "Bob" "bob@x.com" "p1" "g9" 99 [bobL]).2
      = updateById [bobL] bobL.id (if !("p1" : String).isEmpty && bobL.picture != "p1" then { bobL with picture := "p1" } else bobL) ∧
    (googleAuthCore "Bob" "bob@x.com" "p1" "g9" 99 [bobL]).2.length = [bobL].length ∧
    (googleAuthCore "Bob" "bob@x.com" "p1" "g9" 77
       (googleAuthCore "Bob" "bob@x.com" "p1" "g9" 99 [bobL]).2).1
      = (googleAuthCore "Bob" "bob@x.com" "p1" "g9" 99 [bobL]).1 ∧
    (googleAuthCore "Bob" "bob@x.com" "p1" "g9" 77
       (googleAuthCore "Bob" "bob@x.com" "p1" "g9" 99 [bobL]).2).2
      = (googleAuthCore "Bob" "bob@x.com" "p1" "g9" 99 [bobL]).2 := by
  exact C8_google_link_idempotent "Bob" "bob@x.com" "p1" "g9" 99 77 [bobL] bobL
    (by decide)
    (by
      intro v hv _
      rw [List.mem_singleton] at hv
      exact hv)
    (by decide) (by decide)

/-- Claim C10: when the verification email fails to send, Register responds
500 "Failed to send verification email. Please try again." yet the account
has already been created — unverified, with the pending OTP — and is not
rolled back; a subsequent Register with the same email yields 409 with
`requiresVerification`, and ResendOTP succeeds (200) and installs a fresh
code with the attempt counter at 0. -/
theorem C10_register_not_atomic
    (isEmail : String → Bool) (hash : String → String)
    (now1 now2 now3 id1 id2 : Nat) (otp1 otp2 otp3 : String)
    (nm em pw : String) (db : List UserDoc)
    (hnm : nm ≠ "") (hem : em ≠ "") (hpw : pw ≠ "") (hpwl : ¬pw.length < 8)
    (hisem : isEmail em = true)
    (hfree : findByEmail db em = none)
    (hid1 : ∀ v ∈ db, v.id ≠ id1) :
    (registerUser isEmail hash now1 id1 otp1 false (some nm) (some em) (some pw) db).1.status = 500 ∧
    (registerUser isEmail hash now1 id1 otp1 false (some nm) (some em) (some pw) db).1.success = false ∧
    (registerUser isEmail hash now1 id1 otp1 false (some nm) (some em) (some pw) db).1.message
      = "Failed to send verification email. Please try again." ∧
    (registerUser isEmail hash now1 id1 otp1 false (some nm) (some em) (some pw) db).2
      = db ++ [{ id := id1, name := nm, email := jsToLower em, password := some (hash pw), googleId := none, picture := "", isGoogleAuth := false, emailVerified := false, verificationToken := some otp1, verificationTokenExpiresAt := some (now1 + 10 * 60 * 1000), otpAttempts := 0 }] ∧
    (registerUser isEmail hash now2 id2 otp2 true (some nm) (some em) (some pw)
       (registerUser isEmail hash now1 id1 otp1 false (some nm) (some em) (some pw) db).2).1.status = 409 ∧
    (registerUser isEmail hash now2 id2 otp2 true (some nm) (some em) (some pw)
       (registerUser isEmail hash now1 id1 otp1 false (some nm) (some em) (some pw) db).2).1.requiresVerification = some true ∧
    (registerUser isEmail hash now2 id2 otp2 true (some nm) (some em) (some pw)
       (registerUser isEmail hash now1 id1 otp1 false (some nm) (some em) (some pw) db).2).2
      = (registerUser isEmail hash now1 id1 otp1 false (some nm) (some em) (some pw) db).2 ∧
    (resendOTP now3 otp3 true (some em)
       (registerUser isEmail hash now1 id1 otp1 false (some nm) (some em) (some pw) db).2).1.status = 200 ∧
    findByEmail (resendOTP now3 otp3 true (some em)
       (registerUser isEmail hash now1 id1 otp1 false (some nm) (some em) (some pw) db).2).2 em
      = some { id := id1, name := nm, email := jsToLower em, password := some (hash pw), googleId := none, picture := "", isGoogleAuth := false, emailVerified := false, verificationToken := some otp3, verificationTokenExpiresAt := some (now3 + 10 * 60 * 1000), otpAttempts := 0 } := by
  have h1 : registerUser isEmail hash now1 id1 otp1 false (some nm) (some em) (some pw) db
      = (errResp 500 "Failed to send verification email. Please try again.",
         db ++ [{ id := id1, name := nm, email := jsToLower em, password := some (hash pw), googleId := none, picture := "", isGoogleAuth := false, emailVerified := false, verificationToken := some otp1, verificationTokenExpiresAt := some (now1 + 10 * 60 * 1000), otpAttempts := 0 }]) := by
    unfold registerUser
    rw [strTruthy_of_ne hnm, strTruthy_of_ne hem, strTruthy_of_ne hpw]
    rw [if_neg (by decide)]
    dsimp only [Option.getD_some]
    rw [hisem, if_neg (by decide), if_neg hpwl, hfree]
    dsimp only
    rw [if_pos (by decide)]
  have hfind2 : findByEmail (registerUser isEmail hash now1 id1 otp1 false (some nm) (some em) (some pw) db).2 em
      = some { id := id1, name := nm, email := jsToLower em, password := some (hash pw), googleId := none, picture := "", isGoogleAuth := false, emailVerified := false, verificationToken := some otp1, verificationTokenExpiresAt := some (now1 + 10 * 60 * 1000), otpAttempts := 0 } := by
    rw [h1]
    show ((db ++ [_]).find? (fun u => u.email == jsToLower em) : Option UserDoc) = _
    have hfreeu : db.find? (fun u => u.email == jsToLower em) = none := hfree
    rw [List.find?_append, hfreeu, Option.none_or]
    exact List.find?_cons_of_pos _ (beq_self_eq_true _)
  have hIdnew : ∀ v ∈ (registerUser isEmail hash now1 id1 otp1 false (some nm) (some em) (some pw) db).2,
      v.id = id1 → v = { id := id1, name := nm, email := jsToLower em, password := some (hash pw), googleId := none, picture := "", isGoogleAuth := false, emailVerified := false, verificationToken := some otp1, verificationTokenExpiresAt := some (now1 + 10 * 60 * 1000), otpAttempts := 0 } := by
    rw [h1]
    intro v hv hvid
    rcases List.mem_append.mp hv with hvdb | hvnew
    · exact absurd hvid (hid1 v hvdb)
    · rw [List.mem_singleton] at hvnew
      exact hvnew
  have h2 : registerUser isEmail hash now2 id2 otp2 true (some nm) (some em) (some pw)
      (registerUser isEmail hash now1 id1 otp1 false (some nm) (some em) (some pw) db).2
      = ({ status := 409
           success := false
           message := "Email already registered but not verified. Please verify your email."
           requiresVerification := some true
           email := some (jsToLower em) },
         (registerUser isEmail hash now1 id1 otp1 false (some nm) (some em) (some pw) db).2) := by
    generalize hdb1 : (registerUser isEmail hash now1 id1 otp1 false (some nm) (some em) (some pw) db).2 = db1 at hfind2 ⊢
    unfold registerUser
    rw [strTruthy_of_ne hnm, strTruthy_of_ne hem, strTruthy_of_ne hpw]
    rw [if_neg (by decide)]
    dsimp only [Option.getD_some]
    rw [hisem, if_neg (by decide), if_neg hpwl, hfind2]
    rfl
  have h3 : resendOTP now3 otp3 true (some em)
      (registerUser isEmail hash now1 id1 otp1 false (some nm) (some em) (some pw) db).2
      = ({ status := 200
           success := true
           message := "Verification code sent to your email." },
         updateById (registerUser isEmail hash now1 id1 otp1 false (some nm) (some em) (some pw) db).2 id1
           { id := id1, name := nm, email := jsToLower em, password := some (hash pw), googleId := none, picture := "", isGoogleAuth := false, emailVerified := false, verificationToken := some otp3, verificationTokenExpiresAt := some (now3 + 10 * 60 * 1000), otpAttempts := 0 }) := by
    generalize hdb1 : (registerUser isEmail hash now1 id1 otp1 false (some nm) (some em) (some pw) db).2 = db1 at hfind2 ⊢
    unfold resendOTP
    rw [strTruthy_of_ne hem, if_neg (by decide)]
    dsimp only [Option.getD_some]
    rw [hfind2]
    dsimp only
    rw [if_neg (by decide), if_neg (by decide)]
  have hfind3 : findByEmail (resendOTP now3 otp3 true (some em)
      (registerUser isEmail hash now1 id1 otp1 false (some nm) (some em) (some pw) db).2).2 em
      = some { id := id1, name := nm, email := jsToLower em, password := some (hash pw), googleId := none, picture := "", isGoogleAuth := false, emailVerified := false, verificationToken := some otp3, verificationTokenExpiresAt := some (now3 + 10 * 60 * 1000), otpAttempts := 0 } := by
    rw [h3]
    show (updateById _ id1 _).find? (fun u => u.email == jsToLower em) = _
    exact find?_updateById hfind2 hIdnew (beq_self_eq_true _) (fun v _ _ => rfl)
  exact ⟨by rw [h1]; rfl, by rw [h1]; rfl, by rw [h1]; rfl, by rw [h1], by rw [h2],
    by rw [h2], by rw [h2], by rw [h3], hfind3⟩

/-- Claim C10 witness: a failed-email registration of "ann@x.com" into the
empty store, its 409 replay, and the resend recovery. -/
theorem C10_register_not_atomic_witness :
    (registerUser demoIsEmail demoHash 100 1 "123456" false (some "Ann") (some "ann@x.com") (some "password1") []).1.status = 500 ∧
    (registerUser demoIsEmail demoHash 100 1 "123456" false (some "Ann") (some "ann@x.com") (some "password1") []).1.success = false ∧
    (registerUser demoIsEmail demoHash 100 1 "123456" false (some "Ann") (some "ann@x.com") (some "password1") []).1.message
      = "Failed to send verification email. Please try again." ∧
    (registerUser demoIsEmail demoHash 100 1 "123456" false (some "Ann") (some "ann@x.com") (some "password1") []).2
      = [] ++ [{ id := 1, name := "Ann", email := jsToLower "ann@x.com", password := some (demoHash "password1"), googleId := none, picture := "", isGoogleAuth := false, emailVerified := false, verificationToken := some "123456", verificationTokenExpiresAt := some (100 + 10 * 60 * 1000), otpAttempts := 0 }] ∧
    (registerUser demoIsEmail demoHash 200 2 "999999" true (some "Ann") (some "ann@x.com") (some "password1")
       (registerUser demoIsEmail demoHash 100 1 "123456" false (some "Ann") (some "ann@x.com") (some "password1") []).2).1.status = 409 ∧
    (registerUser demoIsEmail demoHash 200 2 "999999" true (some "Ann") (some "ann@x.com") (some "password1")
       (registerUser demoIsEmail demoHash 100 1 "123456" false (some "Ann") (some "ann@x.com") (some "password1") []).2).1.requiresVerification = some true ∧
    (registerUser demoIsEmail demoHash 200 2 "999999" true (some "Ann") (some "ann@x.com") (some "password1")
       (registerUser demoIsEmail demoHash 100 1 "123456" false (some "Ann") (some "ann@x.com") (some "password1") []).2).2
      = (registerUser demoIsEmail demoHash 100 1 "123456" false (some "Ann") (some "ann@x.com") (some "password1") []).2 ∧
    (resendOTP 300 "555555" true (some "ann@x.com")
       (registerUser demoIsEmail demoHash 100 1 "123456" false (some "Ann") (some "ann@x.com") (some "password1") []).2).1.status = 200 ∧
    findByEmail (resendOTP 300 "555555" true (some "ann@x.com")
       (registerUser demoIsEmail demoHash 100 1 "123456" false (some "Ann") (some "ann@x.com") (some "password1") []).2).2 "ann@x.com"
      = some { id := 1, name := "Ann", email := jsToLower "ann@x.com", password := some (demoHash "password1"), googleId := none, picture := "", isGoogleAuth := false, emailVerified := false, verificationToken := some "555555", verificationTokenExpiresAt := some (300 + 10 * 60 * 1000), otpAttempts := 0 } := by
  exact C10_register_not_atomic demoIsEmail demoHash 100 200 300 1 2 "123456" "999999" "555555"
    "Ann" "ann@x.com" "password1" []
    (by decide) (by decide) (by decide) (by decide) (by decide) (by decide)
    (by
      intro v hv
      exact absurd hv (List.not_mem_nil v))
